import Mathlib

/-!
Shallow embedding of `supersid/wxsidviewer.py` (class `wxSidViewer`) and
proofs about the claims of its specification.

The file models the non-toolkit logic of the viewer:
* Python exception flow of the guarded regions (`try/finally`, `try/except`)
  as functions over `Except PyErr _`;
* the `status_display` dispatch on its `level` argument as a small effect
  type (`UIAction`);
* the status bar as a field-indexed map, and the `on_click` handler's write
  to field 1;
* the outcome mapping of `display_message` over the toolkit result codes;
* `get_psd`'s return/exit behaviour over the result of `axes.psd`;
* the `on_exit` / `on_close` event chain as an event trace;
* the filelist construction of `on_plot_files` (string concatenation and
  Python's `rstrip(',')`) over `List Char`.
-/

namespace WxSidViewer

/-- Python exceptions, as far as this file distinguishes them:
`wx.PyDeadObjectError` (caught by name in `get_psd`) and every other
exception, abstracted by a numeric code. -/
inductive PyErr where
  | pyDeadObjectError
  | exn (code : Nat)
deriving DecidableEq

/-- Python `try: body finally: pass` (lines 53-56).  The `finally` clause
executes `pass` and then the block finishes exactly as `body` did: a normal
value is returned, an exception is re-raised.  Nothing is caught. -/
def tryFinallyPass {α : Type} (body : Except PyErr α) : Except PyErr α :=
  match body with
  | Except.ok a => Except.ok a
  | Except.error e => Except.error e

/-- The icon-loading step of `wxSidViewer.__init__` (lines 52-56): the
`self.SetIcon(wx.Icon("supersid_icon.png", wx.BITMAP_TYPE_PNG))` call,
whose outcome is the parameter, wrapped in `try: ... finally: pass`. -/
def init_icon_step (setIconResult : Except PyErr Unit) : Except PyErr Unit :=
  tryFinallyPass setIconResult

/-- Python `try: body except: pass` — a genuine swallow-all guard: normal
completion is passed through, every exception is discarded and the block
completes normally. -/
def tryExceptPass (body : Except PyErr Unit) : Except PyErr Unit :=
  match body with
  | Except.ok _ => Except.ok ()
  | Except.error _ => Except.ok ()

/-- `wxSidViewer.updateDisplay` (lines 121-130): runs
`self.canvas.draw()` then `self.status_display(msg.data)` inside
`try: ... except: pass`.  The two parameters are the outcomes of the two
inner calls; the body sequences them (the second runs only if the first
succeeded), and the guard swallows any exception. -/
def updateDisplay (drawResult statusResult : Except PyErr Unit) :
    Except PyErr Unit :=
  tryExceptPass (drawResult >>= fun _ => statusResult)

/-- Toolkit result code `wx.YES`. -/
def wxYES : Nat := 2

/-- Toolkit result code `wx.OK`. -/
def wxOK : Nat := 4

/-- Toolkit result code `wx.NO`. -/
def wxNO : Nat := 8

/-- Toolkit result code `wx.CANCEL`. -/
def wxCANCEL : Nat := 16

/-- `wxSidViewer.display_message` (lines 214-229), given the result code
`status` of the `wx.MessageBox` call: `if status == wx.YES: return 1`,
`elif status == wx.NO: return 1`, `elif status == wx.CANCEL: return 1`,
`else: return 0`. -/
def display_message (status : Nat) : Nat :=
  if status = wxYES then 1
  else if status = wxNO then 1
  else if status = wxCANCEL then 1
  else 0

/-- The payloads `status_display` can receive: a plain string, or the
frequency/power/strength information formatted by `on_click` (the data of
the formatted string, string rendering of floats abstracted away). -/
inductive Msg where
  | text (s : String)
  | click (frequency power strength : ℝ)

/-- The immediate effect of one `status_display` call: a direct
`self.status_bar.SetStatusText(message, field)` write, a
`wx.CallAfter(self.status_display, message)` marshalled re-invocation, or
a `wx.CallAfter(Publisher().sendMessage, "update", message)` publication
on the notification channel. -/
inductive UIAction where
  | setStatusText (m : Msg) (field : Nat)
  | callAfterStatusDisplay (m : Msg)
  | callAfterSendMessage (topic : String) (m : Msg)

/-- `wxSidViewer.status_display` (lines 135-141).  In the source `level`
and `field` default to 0; callers that rely on the defaults are modelled
by passing 0 explicitly. -/
def status_display (message : Msg) (level : Nat) (field : Nat) : UIAction :=
  if level = 1 then UIAction.callAfterStatusDisplay message
  else if level = 2 then UIAction.callAfterSendMessage "update" message
  else UIAction.setStatusText message field

/-- Execution, on the UI thread, of a deferred call queued by
`wx.CallAfter`: the marshalled `wx.CallAfter(self.status_display, message)`
re-invokes `status_display` with only the message argument, so `level` and
`field` take their defaults (both 0).  Other actions are left as they are. -/
def runDeferred (a : UIAction) : UIAction :=
  match a with
  | UIAction.callAfterStatusDisplay m => status_display m 0 0
  | x => x

/-- The two-field status bar created in `__init__` (lines 104-105),
as the map from field index to its current content. -/
structure StatusBar where
  fields : Nat → Msg

/-- `self.status_bar.SetStatusText(message, field)`. -/
def SetStatusText (sb : StatusBar) (m : Msg) (field : Nat) : StatusBar :=
  ⟨fun i => if i = field then m else sb.fields i⟩

/-- Effect of a `UIAction` on the status bar: only a direct
`SetStatusText` changes it (the two `CallAfter` variants merely queue
work for later). -/
def applyAction (sb : StatusBar) (a : UIAction) : StatusBar :=
  match a with
  | UIAction.setStatusText m f => SetStatusText sb m f
  | _ => sb

/-- A matplotlib mouse event as `on_click` consumes it: whether the click
was inside the axes, and its data coordinates. -/
structure ClickEvent where
  inaxes : Bool
  xdata : ℝ
  ydata : ℝ

/-- `strength = pow(10, (event.ydata/10.0))` from `on_click` (line 210),
over the reals. -/
noncomputable def clickStrength (ydata : ℝ) : ℝ := (10 : ℝ) ^ (ydata / 10)

/-- The frequency/power/strength message `on_click` builds (line 211),
with float-to-string formatting abstracted to the carried values. -/
noncomputable def clickMessage (e : ClickEvent) : Msg :=
  Msg.click e.xdata e.ydata (clickStrength e.ydata)

/-- `wxSidViewer.on_click` (lines 204-212): if `event.inaxes`, computes
the strength, formats the message and calls
`self.status_display(message, field=1)` (so `level` keeps its default 0);
otherwise does nothing. -/
noncomputable def on_click (e : ClickEvent) (sb : StatusBar) : StatusBar :=
  match e.inaxes with
  | true => applyAction sb (status_display (clickMessage e) 0 1)
  | false => sb

/-- Outcome of a `get_psd` call: a normal return of the pair
`(Pxx, freqs)`, a process termination via `exit(code)`, or an exception
propagating to the caller. -/
inductive PsdOutcome (α β : Type) where
  | ret (Pxx : α) (freqs : β)
  | exitProcess (code : Nat)
  | raised (e : PyErr)
deriving DecidableEq

/-- `wxSidViewer.get_psd` (lines 231-237), given the outcome of the inner
`self.axes.psd(data, NFFT=NFFT, Fs=FS)` call: on success returns the pair,
on `wx.PyDeadObjectError` calls `exit(3)`, and any other exception is not
caught. -/
def get_psd {α β : Type} (psdResult : Except PyErr (α × β)) : PsdOutcome α β :=
  match psdResult with
  | Except.ok (p, f) => PsdOutcome.ret p f
  | Except.error PyErr.pyDeadObjectError => PsdOutcome.exitProcess 3
  | Except.error e => PsdOutcome.raised e

/-- Toolkit dialog result code `wx.ID_YES` (returned by `ShowModal`). -/
def wxID_YES : Nat := 5103

/-- Toolkit dialog result code `wx.ID_NO`. -/
def wxID_NO : Nat := 5104

/-- Observable events of the quit interaction: a status-bar write, the
window being closed, and the controller's `on_close` callback firing. -/
inductive FrameEvent where
  | statusWrite (s : String)
  | windowClose
  | controllerOnClose
deriving DecidableEq

/-- `wxSidViewer.on_close` (lines 143-145), the `wx.EVT_CLOSE` handler
bound in `__init__` (line 50): calls `self.controller.on_close()`. -/
def on_close_events : List FrameEvent := [FrameEvent.controllerOnClose]

/-- `self.Close(True)`: the window closes, which fires the `wx.EVT_CLOSE`
event, whose bound handler is `on_close`. -/
def close_events : List FrameEvent := FrameEvent.windowClose :: on_close_events

/-- `wxSidViewer.on_exit` (lines 152-159): writes the signing-off message
to the status bar, shows the modal yes/no confirmation dialog, and iff
`ShowModal()` returns `wx.ID_YES` calls `self.Close(True)`. -/
def on_exit_events (modalResult : Nat) : List FrameEvent :=
  FrameEvent.statusWrite "This is supersid signing off..." ::
  (if modalResult = wxID_YES then close_events else [])

/-- The data-directory string `"../Data/"` hard-coded in `on_plot_files`
(line 181), as a character list. -/
def dataDir : List Char := String.toList "../Data/"

/-- One iteration of the `for u_filename in filedialog.GetFilenames():`
loop body (line 181): `filelist = str(filelist + "../Data/" + str(u_filename) + ",")`. -/
def appendFile (acc u : List Char) : List Char :=
  acc ++ dataDir ++ u ++ [',']

/-- Python `s.rstrip(',')` (line 182): removes every trailing `','`
character, not just one. -/
def rstripComma : List Char → List Char
  | [] => []
  | c :: cs =>
    let rest := rstripComma cs
    if c = ',' ∧ rest = [] then [] else c :: rest

/-- The filelist string `wxSidViewer.on_plot_files` (lines 178-185) hands
to `ssp.plot_filelist`, as a function of the filenames returned by the
dialog: the concatenation loop followed by `rstrip(',')`. -/
def on_plot_files_filelist (filenames : List (List Char)) : List Char :=
  rstripComma (List.foldl appendFile [] filenames)

/-- Joining a list of strings by single commas with no leading or
trailing comma. -/
def joinComma : List (List Char) → List Char
  | [] => []
  | [u] => u
  | u :: v :: rest => u ++ ',' :: joinComma (v :: rest)

/-- Whether a string ends in the character `','`. -/
def endsWithComma : List Char → Bool
  | [] => false
  | [c] => c == ','
  | _ :: c :: cs => endsWithComma (c :: cs)

/-- Modelled from the spec's words, for comparison with
`on_plot_files_filelist`: each selected filename prefixed with the
data-directory prefix and joined by single commas with no trailing
comma. -/
def spec_joined_filelist (filenames : List (List Char)) : List Char :=
  joinComma (List.map (fun u => dataDir ++ u) filenames)

/-! ## Helper lemmas -/

theorem foldl_appendFile_shift (fs : List (List Char)) (a : List Char) :
    List.foldl appendFile a fs = a ++ List.foldl appendFile [] fs := by
  induction fs generalizing a with
  | nil => simp
  | cons u fs ih =>
    rw [List.foldl_cons, List.foldl_cons, ih (appendFile a u),
      ih (appendFile [] u)]
    simp [appendFile]

theorem rstripComma_replicate (k : Nat) :
    rstripComma (List.replicate k ',') = [] := by
  induction k with
  | zero => rfl
  | succ k ih => simp [List.replicate_succ, rstripComma, ih]

theorem rstripComma_append_replicate (X : List Char) (k : Nat) :
    rstripComma (X ++ List.replicate k ',') = rstripComma X := by
  induction X with
  | nil => simpa using rstripComma_replicate k
  | cons c cs ih => simp [rstripComma, ih]

theorem endsWithComma_cons (c : Char) (l : List Char) (h : l ≠ []) :
    endsWithComma (c :: l) = endsWithComma l := by
  cases l with
  | nil => exact absurd rfl h
  | cons d ds => rfl

theorem endsWithComma_append (X Y : List Char) (h : Y ≠ []) :
    endsWithComma (X ++ Y) = endsWithComma Y := by
  induction X with
  | nil => rfl
  | cons c cs ih =>
    rw [List.cons_append,
      endsWithComma_cons c (cs ++ Y) (fun hn => h (List.append_eq_nil.mp hn).2),
      ih]

theorem rstripComma_of_not_endsWithComma (X : List Char)
    (h : endsWithComma X = false) : rstripComma X = X := by
  induction X with
  | nil => rfl
  | cons c cs ih =>
    cases cs with
    | nil =>
      simp only [endsWithComma, beq_eq_false_iff_ne, ne_eq] at h
      simp [rstripComma, h]
    | cons d ds =>
      rw [endsWithComma_cons c (d :: ds) (List.cons_ne_nil d ds)] at h
      have e : rstripComma (c :: d :: ds) =
          if c = ',' ∧ rstripComma (d :: ds) = [] then []
          else c :: rstripComma (d :: ds) := rfl
      rw [e, ih h]
      simp

theorem joinComma_cons (x : List Char) (l : List (List Char)) (h : l ≠ []) :
    joinComma (x :: l) = x ++ ',' :: joinComma l := by
  cases l with
  | nil => exact absurd rfl h
  | cons y ys => rfl

theorem joinComma_append_singleton_ne_nil (l : List (List Char))
    (x : List Char) (h : x ≠ []) : joinComma (l ++ [x]) ≠ [] := by
  cases l with
  | nil => simpa [joinComma] using h
  | cons y ys =>
    rw [List.cons_append, joinComma_cons y (ys ++ [x]) (by simp)]
    simp

theorem endsWithComma_joinComma (l : List (List Char)) (x : List Char)
    (hx : x ≠ []) :
    endsWithComma (joinComma (l ++ [x])) = endsWithComma x := by
  induction l with
  | nil => simp [joinComma]
  | cons y ys ih =>
    rw [List.cons_append, joinComma_cons y (ys ++ [x]) (by simp),
      endsWithComma_append y (',' :: joinComma (ys ++ [x])) (by simp),
      endsWithComma_cons ',' (joinComma (ys ++ [x]))
        (joinComma_append_singleton_ne_nil ys x hx),
      ih]

theorem foldl_appendFile_eq_joinComma (gs : List (List Char)) (u : List Char) :
    List.foldl appendFile [] (gs ++ [u]) =
      joinComma (List.map (fun w => dataDir ++ w) (gs ++ [u])) ++ [','] := by
  induction gs with
  | nil => simp [appendFile, joinComma]
  | cons g gs ih =>
    rw [List.cons_append, List.foldl_cons, foldl_appendFile_shift, ih,
      List.map_cons,
      joinComma_cons (dataDir ++ g) (List.map (fun w => dataDir ++ w) (gs ++ [u]))
        (by simp)]
    simp [appendFile]

theorem endsWithComma_dataDir_append (u : List Char)
    (h : endsWithComma u = false) : endsWithComma (dataDir ++ u) = false := by
  cases u with
  | nil => decide
  | cons c cs =>
    rw [endsWithComma_append dataDir (c :: cs) (List.cons_ne_nil c cs)]
    exact h

/-! ## Claim theorems -/

/-- Claim C1 (the code contradicts it): the icon-loading call in
`wxSidViewer.__init__` is wrapped in `try: ... finally: pass`, whose
`finally` clause is a no-op; it catches nothing, so every exception
raised by `SetIcon` propagates out of the constructor instead of being
swallowed. -/
theorem init_icon_step_propagates (e : PyErr) :
    init_icon_step (Except.error e) = Except.error e := rfl

/-- Claim C2: `display_message` returns 1 exactly when the toolkit
result code is `wx.YES`, `wx.NO` or `wx.CANCEL`, and 0 for every other
result code. -/
theorem display_message_mapping (status : Nat) :
    display_message status =
      if status = wxYES ∨ status = wxNO ∨ status = wxCANCEL then 1 else 0 := by
  unfold display_message
  split_ifs <;> tauto

/-- Claim C3: for a click inside the axes, `on_click` writes the
frequency/power/strength message to status-bar field 1, with
`strength = 10 ^ (ydata / 10)`; in particular strength is 1 at
`ydata = 0`, 10 at `ydata = 10`, and 0.1 at `ydata = -10`. -/
theorem on_click_strength_and_field (e : ClickEvent) (sb : StatusBar)
    (h : e.inaxes = true) :
    (on_click e sb).fields 1 = Msg.click e.xdata e.ydata (clickStrength e.ydata) ∧
    clickStrength 0 = 1 ∧ clickStrength 10 = 10 ∧ clickStrength (-10) = 1 / 10 := by
  refine ⟨?_, ?_, ?_, ?_⟩
  · cases e with
    | mk inaxes x y =>
      cases inaxes with
      | true =>
        simp [on_click, status_display, applyAction, SetStatusText, clickMessage]
      | false => cases h
  · unfold clickStrength; norm_num
  · unfold clickStrength; norm_num
  · unfold clickStrength; norm_num

/-- Witness for C3 at the concrete click event `(inaxes, x, y) = (true, 5, 0)`. -/
theorem on_click_strength_and_field_witness :
    (on_click ⟨true, 5, 0⟩ ⟨fun _ => Msg.text ""⟩).fields 1 =
      Msg.click 5 0 (clickStrength 0) ∧
    clickStrength 0 = 1 ∧ clickStrength 10 = 10 ∧ clickStrength (-10) = 1 / 10 :=
  on_click_strength_and_field ⟨true, 5, 0⟩ ⟨fun _ => Msg.text ""⟩ rfl

/-- Claim C5: `status_display` at level 0 writes directly to the given
field, at level 2 always queues a publication on the "update"
notification channel, and at level 1 marshals a re-invocation of itself
onto the UI thread. -/
theorem status_display_dispatch (m : Msg) (f : Nat) :
    status_display m 0 f = UIAction.setStatusText m f ∧
    status_display m 2 f = UIAction.callAfterSendMessage "update" m ∧
    status_display m 1 f = UIAction.callAfterStatusDisplay m :=
  ⟨rfl, rfl, rfl⟩

/-- Claim C6: `updateDisplay` returns normally whatever its inner
`canvas.draw()` and `status_display` calls do: the swallow-all guard
discards every exception. -/
theorem updateDisplay_never_raises (drawResult statusResult : Except PyErr Unit) :
    updateDisplay drawResult statusResult = Except.ok () := by
  cases drawResult <;> cases statusResult <;> rfl

/-- Claim C7: `get_psd` returns the pair computed by `axes.psd` when the
call succeeds, and terminates the process with exit code 3 when the call
raises `wx.PyDeadObjectError`. -/
theorem get_psd_spec (α β : Type) (p : α) (f : β) :
    get_psd (Except.ok (p, f)) = PsdOutcome.ret p f ∧
    get_psd (Except.error PyErr.pyDeadObjectError : Except PyErr (α × β)) =
      PsdOutcome.exitProcess 3 :=
  ⟨rfl, rfl⟩

/-- Claim C8: the controller's `on_close` callback fires in the quit
interaction exactly when the confirmation dialog answers yes
(`ShowModal() == wx.ID_YES`), via window close and the `EVT_CLOSE`
handler. -/
theorem on_exit_close_iff_yes (modalResult : Nat) :
    FrameEvent.controllerOnClose ∈ on_exit_events modalResult ↔
      modalResult = wxID_YES := by
  unfold on_exit_events close_events on_close_events
  split_ifs with h <;> simp [h]

/-- Claim C9: a `status_display` call at level 1 discards its `field`
argument: the marshalled re-invocation carries only the message, so when
the UI thread runs it, the write goes to field 0 (the default) for every
`field` value passed at level 1. -/
theorem status_display_level1_discards_field (m : Msg) (f : Nat) :
    runDeferred (status_display m 1 f) = UIAction.setStatusText m 0 := rfl

/-- Claim C4 counterexample: for the selection `["a.csv,"]` the handed
string is `"../Data/a.csv"`, not the prefixed comma-join
`"../Data/a.csv,"` of the claim — the trailing comma of the filename
itself is also stripped. -/
theorem on_plot_files_filelist_counterexample :
    on_plot_files_filelist [String.toList "a.csv,"] ≠
      spec_joined_filelist [String.toList "a.csv,"] := by decide

/-- Claim C4 (amended): for every non-empty selection whose last
filename does not end in a comma character, the string handed to
`plot_filelist` is each filename prefixed with `"../Data/"` and joined
by single commas with no trailing comma; in particular for
`["a.csv", "b.csv"]` it is `"../Data/a.csv,../Data/b.csv"`. -/
theorem on_plot_files_filelist_eq_join (gs : List (List Char)) (u : List Char)
    (h : endsWithComma u = false) :
    on_plot_files_filelist (gs ++ [u]) = spec_joined_filelist (gs ++ [u]) ∧
    on_plot_files_filelist [String.toList "a.csv", String.toList "b.csv"] =
      String.toList "../Data/a.csv,../Data/b.csv" := by
  constructor
  · unfold on_plot_files_filelist spec_joined_filelist
    rw [foldl_appendFile_eq_joinComma]
    have h2 : endsWithComma
        (joinComma (List.map (fun w => dataDir ++ w) (gs ++ [u]))) = false := by
      rw [List.map_append, List.map_singleton,
        endsWithComma_joinComma (List.map (fun w => dataDir ++ w) gs)
          (dataDir ++ u)
          (fun hn => absurd (List.append_eq_nil.mp hn).1 (by decide))]
      exact endsWithComma_dataDir_append u h
    calc rstripComma
          (joinComma (List.map (fun w => dataDir ++ w) (gs ++ [u])) ++ [','])
        = rstripComma (joinComma (List.map (fun w => dataDir ++ w) (gs ++ [u]))) := by
          simpa using rstripComma_append_replicate
            (joinComma (List.map (fun w => dataDir ++ w) (gs ++ [u]))) 1
      _ = joinComma (List.map (fun w => dataDir ++ w) (gs ++ [u])) :=
          rstripComma_of_not_endsWithComma _ h2
  · decide

/-- Witness for the amended C4 at the concrete selection
`["a.csv", "b.csv"]`. -/
theorem on_plot_files_filelist_eq_join_witness :
    endsWithComma (String.toList "b.csv") = false ∧
    (on_plot_files_filelist [String.toList "a.csv", String.toList "b.csv"] =
        spec_joined_filelist [String.toList "a.csv", String.toList "b.csv"] ∧
      on_plot_files_filelist [String.toList "a.csv", String.toList "b.csv"] =
        String.toList "../Data/a.csv,../Data/b.csv") :=
  ⟨by decide, on_plot_files_filelist_eq_join [String.toList "a.csv"]
    (String.toList "b.csv") (by decide)⟩

/-- Claim C10: `rstrip(',')` removes every trailing comma character, so
trailing commas of the last selected filename are removed too: appending
any number of `','` characters to the last filename does not change the
handed filelist; concretely the selection `["a.csv,,"]` yields
`"../Data/a.csv"`. -/
theorem on_plot_files_filelist_strips_trailing_commas
    (gs : List (List Char)) (u : List Char) (k : Nat) :
    on_plot_files_filelist (gs ++ [u ++ List.replicate k ',']) =
      on_plot_files_filelist (gs ++ [u]) ∧
    on_plot_files_filelist [String.toList "a.csv,,"] =
      String.toList "../Data/a.csv" := by
  constructor
  · unfold on_plot_files_filelist
    rw [List.foldl_append, List.foldl_append, List.foldl_cons, List.foldl_cons,
      List.foldl_nil, List.foldl_nil]
    have e1 : appendFile (List.foldl appendFile [] gs) (u ++ List.replicate k ',') =
        (List.foldl appendFile [] gs ++ dataDir ++ u) ++
          List.replicate (k + 1) ',' := by
      simp [appendFile, List.replicate_succ']
    have e2 : appendFile (List.foldl appendFile [] gs) u =
        (List.foldl appendFile [] gs ++ dataDir ++ u) ++ List.replicate 1 ',' := by
      simp [appendFile]
    rw [e1, e2, rstripComma_append_replicate, rstripComma_append_replicate]
  · decide

end WxSidViewer
